import Mathlib

/-!
Shallow embedding of the ItsBreakTime break-timer core.

The repository contains two revisions of the renderer `TimerService`:
revision A lives at `src/renderer/services/timerService.ts`, and revision B
is the `TimerService` embedded in `src/renderer/services/storageService.ts`
(lines 24-139 of that file).  Both are embedded below, in namespaces
`RevA` and `RevB`.

The svelte-store `update` closures are embedded as their state
transformations: each operation is a function on `TimerState` (and the
per-second interval callback is `tick`).  Scheduled follow-up actions
(`setTimeout(() => this.start(), 500)`) are made explicit as a `Followup`
value returned next to the new state.
-/

namespace ItsBreakTime

/-- Timer settings, `timerSettings` store shape (storageService.ts defaults
block and `StoreSchema.timerSettings`). -/
structure TimerSettings where
  workDuration : Int
  breakDuration : Int
  longBreakDuration : Int
  longBreakInterval : Int
deriving Repr, DecidableEq

/-- Renderer timer state (`TimerState` of `stores/timer`), as read and
written by both `TimerService` revisions. -/
structure TimerState where
  isRunning : Bool
  isOnBreak : Bool
  timeRemaining : Int
  cycleCount : Int
  totalBreaksTaken : Int
deriving Repr, DecidableEq

/-- A scheduled follow-up action of a timer operation:
`startAfterMs d` models `setTimeout(() => this.start(), d)`. -/
inductive Followup where
  | none
  | startAfterMs (ms : Nat)
deriving Repr, DecidableEq

namespace RevA

/-- Embedding of `TimerService.start` (timerService.ts lines 9-26): no-op when already
running, otherwise sets `isRunning` and installs the 1 s interval. -/
def start (s : TimerState) : TimerState :=
  if s.isRunning then s else { s with isRunning := true }

/-- Embedding of `TimerService.pause` (timerService.ts lines 28-31): clears `isRunning`
and cancels the interval. -/
def pause (s : TimerState) : TimerState :=
  { s with isRunning := false }

/-- Embedding of `TimerService.reset` (timerService.ts lines 33-46). -/
def reset (σ : TimerSettings) (s : TimerState) : TimerState :=
  let s₀ := pause s
  let newDuration := if s₀.isOnBreak then σ.breakDuration else σ.workDuration * 60
  { s₀ with timeRemaining := newDuration, isRunning := false }

/-- Embedding of `TimerService.handleTimerComplete` (timerService.ts lines 48-72):
pauses, toggles `isOnBreak`, and when the NEXT phase is a break increments
BOTH `cycleCount` and `totalBreaksTaken`; sets `timeRemaining` to the new
phase's duration. -/
def handleTimerComplete (σ : TimerSettings) (s : TimerState) : TimerState :=
  let s₀ := pause s
  let nextIsOnBreak := !s₀.isOnBreak
  let newDuration := if nextIsOnBreak then σ.breakDuration else σ.workDuration * 60
  { s₀ with
    isOnBreak := nextIsOnBreak
    timeRemaining := newDuration
    cycleCount := if nextIsOnBreak then s₀.cycleCount + 1 else s₀.cycleCount
    totalBreaksTaken :=
      if nextIsOnBreak then s₀.totalBreaksTaken + 1 else s₀.totalBreaksTaken }

/-- The 1 s interval callback installed by `start` (timerService.ts lines
15-25): decrement while positive, otherwise run the completion handler. -/
def tick (σ : TimerSettings) (s : TimerState) : TimerState :=
  if s.timeRemaining > 0 then { s with timeRemaining := s.timeRemaining - 1 }
  else handleTimerComplete σ s

/-- Embedding of `TimerService.skipBreak` (timerService.ts lines 74-81): clears
`isOnBreak` and resets the remaining time; touches nothing else and
schedules no restart. -/
def skipBreak (σ : TimerSettings) (s : TimerState) : TimerState :=
  { s with isOnBreak := false, timeRemaining := σ.workDuration * 60 }

/-- Embedding of `TimerService.snoozeBreak` (timerService.ts lines 83-91): resets the
remaining time, clears `isOnBreak`, then calls `this.start()`
synchronously. -/
def snoozeBreak (σ : TimerSettings) (s : TimerState) : TimerState :=
  start { s with timeRemaining := σ.workDuration * 60, isOnBreak := false }

end RevA

namespace RevB

/-- Embedding of `TimerService.start` (storageService.ts lines 32-50). -/
def start (s : TimerState) : TimerState :=
  if s.isRunning then s else { s with isRunning := true }

/-- Embedding of `TimerService.pause` (storageService.ts lines 52-55). -/
def pause (s : TimerState) : TimerState :=
  { s with isRunning := false }

/-- Embedding of `TimerService.reset` (storageService.ts lines 57-70). -/
def reset (σ : TimerSettings) (s : TimerState) : TimerState :=
  let s₀ := pause s
  let newDuration := if s₀.isOnBreak then σ.breakDuration else σ.workDuration * 60
  { s₀ with timeRemaining := newDuration, isRunning := false }

/-- Embedding of `TimerService.handleTimerComplete` (storageService.ts lines 72-109):
pauses; on a work→break transition increments `cycleCount`, on a
break→work transition increments `totalBreaksTaken`; sets `timeRemaining`
to the new phase's duration; when the new phase is work, schedules
`start` after 500 ms. -/
def handleTimerComplete (σ : TimerSettings) (s : TimerState) :
    TimerState × Followup :=
  let s₀ := pause s
  let wasOnBreak := s₀.isOnBreak
  let nextIsOnBreak := !wasOnBreak
  let newCycleCount := if wasOnBreak then s₀.cycleCount else s₀.cycleCount + 1
  let newBreaksTaken :=
    if wasOnBreak then s₀.totalBreaksTaken + 1 else s₀.totalBreaksTaken
  let newDuration := if nextIsOnBreak then σ.breakDuration else σ.workDuration * 60
  ({ s₀ with
     isRunning := false
     isOnBreak := nextIsOnBreak
     timeRemaining := newDuration
     cycleCount := newCycleCount
     totalBreaksTaken := newBreaksTaken },
   if nextIsOnBreak then Followup.none else Followup.startAfterMs 500)

/-- The 1 s interval callback installed by `start` (storageService.ts lines
39-49). -/
def tick (σ : TimerSettings) (s : TimerState) : TimerState × Followup :=
  if s.timeRemaining > 0 then
    ({ s with timeRemaining := s.timeRemaining - 1 }, Followup.none)
  else handleTimerComplete σ s

/-- Embedding of `TimerService.skipBreak` (storageService.ts lines 111-122): leaves the
break, stops running, resets remaining time to the work duration,
increments `totalBreaksTaken`, and schedules `start` after 500 ms. -/
def skipBreak (σ : TimerSettings) (s : TimerState) : TimerState × Followup :=
  ({ s with
     isOnBreak := false
     isRunning := false
     timeRemaining := σ.workDuration * 60
     totalBreaksTaken := s.totalBreaksTaken + 1 },
   Followup.startAfterMs 500)

/-- Embedding of `TimerService.snoozeBreak` (storageService.ts lines 124-135): same
timer-state effect as skip except `totalBreaksTaken` is untouched;
schedules `start` after 500 ms. -/
def snoozeBreak (σ : TimerSettings) (s : TimerState) : TimerState × Followup :=
  ({ s with
     timeRemaining := σ.workDuration * 60
     isOnBreak := false
     isRunning := false },
   Followup.startAfterMs 500)

end RevB

/-- The user/interval events driving the revision-A timer state machine. -/
inductive TimerOp where
  | start
  | pause
  | reset
  | tick
deriving Repr, DecidableEq

/-- One event of the revision-A state machine.  The 1 s interval exists
exactly while `isRunning` holds (it is installed by `start` and cancelled
by `pause`, `reset` and the completion handler), so a `tick` event is a
no-op on a non-running state. -/
def stepA (σ : TimerSettings) (op : TimerOp) (s : TimerState) : TimerState :=
  match op with
  | .start => RevA.start s
  | .pause => RevA.pause s
  | .reset => RevA.reset σ s
  | .tick => if s.isRunning then RevA.tick σ s else s

/-- Run a sequence of events of the revision-A state machine. -/
def runA (σ : TimerSettings) (ops : List TimerOp) (s : TimerState) : TimerState :=
  ops.foldl (fun t op => stepA σ op t) s

/-! ## Overlay Fleet Manager (main-process revision with multi-display
support and elapsed-time broadcast; `src/unnamed/part_001`) -/

/-- Bounds of a connected display (`display.bounds`). -/
structure Display where
  x : Int
  y : Int
  width : Int
  height : Int
deriving Repr, DecidableEq

/-- Model of a break-overlay `BrowserWindow`: its recorded bounds and the
liveness/visibility flags the fleet manager inspects (`isDestroyed`,
`webContents.isLoading`, visibility, fullscreen).  Focus/blur is not
tracked; no claim mentions it. -/
structure Surface where
  x : Int
  y : Int
  width : Int
  height : Int
  visible : Bool
  fullscreen : Bool
  destroyed : Bool
  loading : Bool
deriving Repr, DecidableEq

/-- The main-process module state of part_001: `isBreakActive`,
`currentBreakDuration`, `breakStartTime`, `breakBroadcastInterval`
(as a liveness flag) and `breakOverlayWindows`. -/
structure OverlayState where
  isBreakActive : Bool
  currentBreakDuration : Int
  breakStartTime : Int
  broadcastActive : Bool
  fleet : List Surface
deriving Repr, DecidableEq

/-- A follow-up scheduled by the broadcast loop:
`hideAfterMs d` models `setTimeout(() => hideBreakOverlay(), d)`. -/
inductive OverlayFollowup where
  | none
  | hideAfterMs (ms : Nat)
deriving Repr, DecidableEq

namespace Fleet

/-- Embedding of `getRemainingBreakTime` (part_001 lines 69-75): outside an active break
(or before the start timestamp is recorded) it returns the stored
duration; otherwise `max(0, duration - floor((now - start)/1000))`. -/
def getRemainingBreakTime (now : Int) (st : OverlayState) : Int :=
  if !st.isBreakActive || st.breakStartTime == 0 then st.currentBreakDuration
  else
    let elapsed := (now - st.breakStartTime).fdiv 1000
    max 0 (st.currentBreakDuration - elapsed)

/-- Embedding of `broadcastBreakTimer` (part_001 lines 77-99): computes the remaining
time, sends it to every window that is neither destroyed nor still
loading (the returned list), and when the remaining time has reached 0
clears the broadcast interval and schedules teardown after 100 ms. -/
def broadcastBreakTimer (now : Int) (st : OverlayState) :
    OverlayState × List Surface × OverlayFollowup :=
  let remaining := getRemainingBreakTime now st
  let recipients := st.fleet.filter fun w => !w.destroyed && !w.loading
  if remaining ≤ 0 then
    ({ st with broadcastActive := false }, recipients, OverlayFollowup.hideAfterMs 100)
  else
    (st, recipients, OverlayFollowup.none)

/-- A freshly constructed overlay window (part_001 lines 120-149): created
hidden at the display's bounds, not fullscreen, and loading its content. -/
def newOverlayWindow (d : Display) : Surface :=
  { x := d.x, y := d.y, width := d.width, height := d.height,
    visible := false, fullscreen := false, destroyed := false, loading := true }

/-- Embedding of `createBreakOverlays` (part_001 lines 101-178): closes every existing
overlay, empties the fleet, then creates one hidden window per connected
display at that display's bounds. -/
def createBreakOverlays (displays : List Display) (st : OverlayState) :
    OverlayState :=
  { st with fleet := displays.map newOverlayWindow }

/-- Embedding of `showBreakOverlay` (part_001 lines 180-216): records the active break,
its duration and start time, creates the fleet when it is empty, then
shows every window fullscreen and starts the 100 ms broadcast interval. -/
def showBreakOverlay (now : Int) (displays : List Display) (duration : Int)
    (st : OverlayState) : OverlayState :=
  let st₁ := { st with
    isBreakActive := true
    currentBreakDuration := duration
    breakStartTime := now }
  let st₂ := if st₁.fleet.isEmpty then createBreakOverlays displays st₁ else st₁
  { st₂ with
    fleet := st₂.fleet.map fun w => { w with visible := true, fullscreen := true }
    broadcastActive := true }

/-- The per-window body of `hideBreakOverlay`'s loop (part_001 lines
233-240): a live window is blurred, hidden, taken out of fullscreen and
closed (hence destroyed); a destroyed window is skipped. -/
def hideSurface (w : Surface) : Surface :=
  if w.destroyed then w
  else { w with visible := false, fullscreen := false, destroyed := true }

/-- Each window's `closed` handler (part_001 lines 167-172) splices it out
of `breakOverlayWindows`; once the close events settle, no destroyed
window remains in the fleet. -/
def settleClosed (fleet : List Surface) : List Surface :=
  fleet.filter fun w => !w.destroyed

/-- Embedding of `hideBreakOverlay` (part_001 lines 218-243): no-op when no break is
active; otherwise clears the break bookkeeping, stops the broadcast
interval, and closes every live window (each removed from the fleet by
its `closed` handler). -/
def hideBreakOverlay (st : OverlayState) : OverlayState :=
  if !st.isBreakActive then st
  else
    { isBreakActive := false
      currentBreakDuration := 0
      breakStartTime := 0
      broadcastActive := false
      fleet := settleClosed (st.fleet.map hideSurface) }

/-- Closing a window that is being dropped from the fleet on display
removal (part_001 lines 440-446): blur, hide, leave fullscreen, close. -/
def closeSurface (w : Surface) : Surface :=
  { w with visible := false, fullscreen := false, destroyed := true }

/-- The `display-removed` handler (part_001 lines 425-453): when a break is
active, keeps exactly the non-destroyed windows whose x-coordinate lies
within 100 px of some current display's x-coordinate; the other windows
are closed and dropped.  Returns the new state together with the list of
dropped windows (after their close). -/
def onDisplayRemoved (displays : List Display) (st : OverlayState) :
    OverlayState × List Surface :=
  if !st.isBreakActive then (st, [])
  else
    let matchesX := fun (w : Surface) =>
      displays.any fun d => decide ((w.x - d.x).natAbs < 100)
    let kept := st.fleet.filter fun w => !w.destroyed && matchesX w
    let dropped :=
      (st.fleet.filter fun w => !w.destroyed && !matchesX w).map closeSurface
    ({ st with fleet := kept }, dropped)

end Fleet

/-! ## Meeting Detector and Break Gate (main-process revision with meeting
detection; `src/unnamed/part_000`, third revision) -/

/-- Entries of `MEETING_APPS` (part_000 lines 1026-1039). -/
def MEETING_APPS : List String :=
  ["Microsoft Teams", "Microsoft Teams (work or school)", "Slack",
   "Google Chrome", "Safari", "Firefox", "Zoom.us", "zoom.us", "Webex",
   "Cisco Webex Meetings", "Discord", "Skype"]

/-- Entries of `MEETING_URL_PATTERNS` (part_000 lines 1042-1048). -/
def MEETING_URL_PATTERNS : List String :=
  ["meet.google.com", "teams.microsoft.com", "app.slack.com/huddle",
   "zoom.us/j/", "webex.com"]

/-- Tests whether `needle` occurs at the head of `hay` (helper for the JavaScript
`String.prototype.includes`). -/
def charsStartWith : List Char → List Char → Bool
  | _, [] => true
  | [], _ :: _ => false
  | h :: hs, n :: ns => h == n && charsStartWith hs ns

/-- Tests whether `needle` occurs somewhere in `hay` (helper for `includes`). -/
def charsContain : List Char → List Char → Bool
  | [], needle => needle.isEmpty
  | h :: hs, needle => charsStartWith (h :: hs) needle || charsContain hs needle

/-- JavaScript `hay.includes(needle)`. -/
def strIncludes (hay needle : String) : Bool :=
  charsContain hay.toList needle.toList

/-- Leading-whitespace removal (helper for the JavaScript `trim()`). -/
def dropLeadingWs : List Char → List Char
  | [] => []
  | c :: cs => if c.isWhitespace then dropLeadingWs cs else c :: cs

/-- JavaScript `s.trim()`: strips leading and trailing whitespace. -/
def strTrim (s : String) : String :=
  String.mk (dropLeadingWs (dropLeadingWs s.toList.reverse).reverse)

/-- JavaScript `s.toLowerCase()` (over the character list). -/
def strToLower (s : String) : String :=
  String.mk (s.toList.map Char.toLower)

/-- The environment `isInMeeting` queries: the platform, the result of
`systemPreferences.getMediaAccessStatus('screen')`, and the two
AppleScript invocations, `none` standing for a rejected/throwing call. -/
structure MeetingEnv where
  platformDarwin : Bool
  screenPermission : String
  frontmostApp : Option String
  browserFrontWindowTitle : Option String
deriving Repr, DecidableEq

/-- The browser test of part_000 line 1085. -/
def isBrowserApp (activeApp : String) : Bool :=
  strIncludes activeApp "Chrome" || strIncludes activeApp "Safari" ||
    strIncludes activeApp "Firefox"

/-- Embedding of `isInMeeting` (part_000 lines 1051-1115): `false` off macOS, without
the screen-inspection permission, or when the frontmost-app query throws
(outer catch); for an allow-listed frontmost app that is a browser, reads
the front window title and matches it against the URL patterns, returning
`true` when the title cannot be read (inner catch); `true` for an
allow-listed non-browser app; otherwise `false`. -/
def isInMeeting (env : MeetingEnv) : Bool :=
  if !env.platformDarwin then false
  else if env.screenPermission != "granted" then false
  else
    match env.frontmostApp with
    | Option.none => false
    | Option.some appName =>
      let activeApp := strTrim appName
      if MEETING_APPS.any fun a => strIncludes activeApp a then
        if isBrowserApp activeApp then
          match env.browserFrontWindowTitle with
          | Option.none => true
          | Option.some windowTitle =>
            let title := strToLower (strTrim windowTitle)
            MEETING_URL_PATTERNS.any fun p => strIncludes title p
        else true
      else false

/-- The break-gate slice of part_000's module state: the single
`pendingBreakDuration` slot and whether the break overlay path has been
entered (`startBreakTimer` called / overlays shown). -/
structure GateState where
  pending : Option Int
  overlayShown : Bool
deriving Repr, DecidableEq

/-- A follow-up scheduled by the gate:
`recheckAfterMs d` models `setTimeout(checkAndShowPendingBreak, d)`. -/
inductive GateFollowup where
  | none
  | recheckAfterMs (ms : Nat)
deriving Repr, DecidableEq

namespace Gate

/-- Embedding of `showBreakOverlay` (part_000 lines 1322-1425), gate slice: with
meeting-skip enabled and a meeting detected, stores the duration in the
pending slot (overwriting any prior value), notifies, and schedules a
re-check after 30 s; otherwise clears the pending slot and shows the
break. -/
def showBreakOverlay (skipDuringMeetings inMeeting : Bool) (duration : Int)
    (st : GateState) : GateState × GateFollowup :=
  if skipDuringMeetings && inMeeting then
    ({ st with pending := Option.some duration }, GateFollowup.recheckAfterMs 30000)
  else
    ({ pending := Option.none, overlayShown := true }, GateFollowup.none)

/-- Embedding of `checkAndShowPendingBreak` (part_000 lines 1118-1135): no-op without a
pending break; with one, queries the detector — still in a meeting means
reschedule after 30 s, otherwise the pending slot is consumed and
`showBreakOverlay` is called with its duration (which performs its own
meeting check, `inMeeting₂`). -/
def checkAndShowPendingBreak (inMeeting : Bool) (skipDuringMeetings inMeeting₂ : Bool)
    (st : GateState) : GateState × GateFollowup :=
  match st.pending with
  | Option.none => (st, GateFollowup.none)
  | Option.some duration =>
    if inMeeting then (st, GateFollowup.recheckAfterMs 30000)
    else
      showBreakOverlay skipDuringMeetings inMeeting₂ duration
        { st with pending := Option.none }

end Gate

/-! ## Theorems -/

/-- The per-window action of `hideBreakOverlay` always leaves the window
destroyed (a live window is closed; a dead one already was). -/
lemma hideSurface_destroyed (w : Surface) :
    (Fleet.hideSurface w).destroyed = true := by
  unfold Fleet.hideSurface
  split
  · assumption
  · rfl

/-- After `hideBreakOverlay`'s per-window closes settle, the fleet is
empty. -/
lemma settleClosed_map_hideSurface (l : List Surface) :
    Fleet.settleClosed (l.map Fleet.hideSurface) = [] := by
  unfold Fleet.settleClosed
  rw [List.filter_eq_nil_iff]
  intro a ha
  obtain ⟨b, _, rfl⟩ := List.mem_map.mp ha
  simp [hideSurface_destroyed]

/-- Every single event of the revision-A machine preserves non-negativity
of the remaining time, given non-negative configured durations. -/
lemma stepA_timeRemaining_nonneg (σ : TimerSettings)
    (hw : 0 ≤ σ.workDuration) (hb : 0 ≤ σ.breakDuration)
    (op : TimerOp) (s : TimerState) (h : 0 ≤ s.timeRemaining) :
    0 ≤ (stepA σ op s).timeRemaining := by
  have hw60 : 0 ≤ σ.workDuration * 60 := mul_nonneg hw (by norm_num)
  cases op with
  | start =>
      simp only [stepA, RevA.start]
      split <;> simpa
  | pause => exact h
  | reset =>
      simp only [stepA, RevA.reset, RevA.pause]
      split <;> simpa
  | tick =>
      by_cases hr : s.isRunning
      · by_cases ht : s.timeRemaining > 0
        · simp only [stepA, RevA.tick, hr, ht, if_true]
          omega
        · simp only [stepA, RevA.tick, RevA.handleTimerComplete, RevA.pause,
            hr, ht, if_true, if_false]
          split <;> simpa
      · simp only [stepA, hr, Bool.false_eq_true, if_false]
        exact h

/-- Running any event sequence of the revision-A machine preserves
non-negativity of the remaining time. -/
lemma runA_timeRemaining_nonneg (σ : TimerSettings)
    (hw : 0 ≤ σ.workDuration) (hb : 0 ≤ σ.breakDuration)
    (ops : List TimerOp) :
    ∀ s : TimerState, 0 ≤ s.timeRemaining → 0 ≤ (runA σ ops s).timeRemaining := by
  induction ops with
  | nil => intro s h; exact h
  | cons op ops ih =>
      intro s h
      exact ih (stepA σ op s) (stepA_timeRemaining_nonneg σ hw hb op s h)

/-- C1 (counterexample): the claim says `totalBreaksTaken` is unchanged on
a work→break transition, but the `handleTimerComplete` of
`src/renderer/services/timerService.ts` increments it there: completing
from a work phase (isOnBreak = false) changes `totalBreaksTaken`. -/
theorem c1_counterexample :
    (⟨true, false, 0, 0, 0⟩ : TimerState).isOnBreak = false ∧
    (RevA.handleTimerComplete ⟨20, 20, 5, 4⟩ ⟨true, false, 0, 0, 0⟩).isOnBreak
      = true ∧
    (RevA.handleTimerComplete ⟨20, 20, 5, 4⟩ ⟨true, false, 0, 0, 0⟩).totalBreaksTaken
      ≠ (⟨true, false, 0, 0, 0⟩ : TimerState).totalBreaksTaken := by
  refine ⟨rfl, rfl, ?_⟩
  decide

/-- C1 (amended): on countdown completion, the storageService.ts revision
behaves exactly as claimed — `cycleCount` +1 on work→break only,
`totalBreaksTaken` +1 on break→work only, `timeRemaining` set to the new
phase's duration — while the timerService.ts revision sets `cycleCount`
and `timeRemaining` as claimed but increments `totalBreaksTaken` on
work→break and leaves it unchanged on break→work. -/
theorem c1_completion_amended (σ : TimerSettings) (s : TimerState) :
    ((RevB.handleTimerComplete σ s).1.cycleCount =
        (if s.isOnBreak then s.cycleCount else s.cycleCount + 1)) ∧
    ((RevB.handleTimerComplete σ s).1.totalBreaksTaken =
        (if s.isOnBreak then s.totalBreaksTaken + 1 else s.totalBreaksTaken)) ∧
    ((RevB.handleTimerComplete σ s).1.timeRemaining =
        (if s.isOnBreak then σ.workDuration * 60 else σ.breakDuration)) ∧
    ((RevB.handleTimerComplete σ s).1.isOnBreak = !s.isOnBreak) ∧
    ((RevA.handleTimerComplete σ s).cycleCount =
        (if s.isOnBreak then s.cycleCount else s.cycleCount + 1)) ∧
    ((RevA.handleTimerComplete σ s).totalBreaksTaken =
        (if s.isOnBreak then s.totalBreaksTaken else s.totalBreaksTaken + 1)) ∧
    ((RevA.handleTimerComplete σ s).timeRemaining =
        (if s.isOnBreak then σ.workDuration * 60 else σ.breakDuration)) ∧
    ((RevA.handleTimerComplete σ s).isOnBreak = !s.isOnBreak) := by
  cases h : s.isOnBreak <;>
    simp [RevA.handleTimerComplete, RevA.pause,
      RevB.handleTimerComplete, RevB.pause, h]

/-- C2: over every sequence of start/pause/reset/tick events of the
timerService.ts state machine, the remaining time never becomes negative;
and a tick taken in a running state that remains running afterwards
decreases the remaining time by exactly 1 (in particular it never
increases it while the countdown keeps running). -/
theorem c2_time_nonneg_tick_decrements (σ : TimerSettings)
    (hw : 0 ≤ σ.workDuration) (hb : 0 ≤ σ.breakDuration)
    (s₀ : TimerState) (h₀ : 0 ≤ s₀.timeRemaining) (ops : List TimerOp)
    (s : TimerState) (hrun : s.isRunning = true)
    (hstill : (RevA.tick σ s).isRunning = true) :
    0 ≤ (runA σ ops s₀).timeRemaining ∧
    (RevA.tick σ s).timeRemaining = s.timeRemaining - 1 ∧
    (RevA.tick σ s).timeRemaining < s.timeRemaining := by
  refine ⟨runA_timeRemaining_nonneg σ hw hb ops s₀ h₀, ?_⟩
  by_cases ht : s.timeRemaining > 0
  · constructor
    · simp [RevA.tick, ht]
    · simp [RevA.tick, ht]
  · exfalso
    simp [RevA.tick, RevA.handleTimerComplete, RevA.pause, ht] at hstill

/-- C2 (witness): the theorem instantiated at the default settings, a
fresh 20-minute work state, a short event sequence, and a running state
with 5 s left. -/
theorem c2_witness :
    ((0 : Int) ≤ (⟨20, 20, 5, 4⟩ : TimerSettings).workDuration) ∧
    ((0 : Int) ≤ (⟨20, 20, 5, 4⟩ : TimerSettings).breakDuration) ∧
    ((0 : Int) ≤ (⟨false, false, 1200, 0, 0⟩ : TimerState).timeRemaining) ∧
    ((⟨true, false, 5, 0, 0⟩ : TimerState).isRunning = true) ∧
    ((RevA.tick ⟨20, 20, 5, 4⟩ ⟨true, false, 5, 0, 0⟩).isRunning = true) ∧
    (0 ≤ (runA ⟨20, 20, 5, 4⟩
        [TimerOp.start, TimerOp.tick, TimerOp.tick, TimerOp.pause, TimerOp.reset]
        ⟨false, false, 1200, 0, 0⟩).timeRemaining ∧
      (RevA.tick ⟨20, 20, 5, 4⟩ ⟨true, false, 5, 0, 0⟩).timeRemaining =
        (⟨true, false, 5, 0, 0⟩ : TimerState).timeRemaining - 1 ∧
      (RevA.tick ⟨20, 20, 5, 4⟩ ⟨true, false, 5, 0, 0⟩).timeRemaining <
        (⟨true, false, 5, 0, 0⟩ : TimerState).timeRemaining) :=
  ⟨by decide, by decide, by decide, by decide, by decide,
    c2_time_nonneg_tick_decrements ⟨20, 20, 5, 4⟩ (by decide) (by decide)
      ⟨false, false, 1200, 0, 0⟩ (by decide)
      [TimerOp.start, TimerOp.tick, TimerOp.tick, TimerOp.pause, TimerOp.reset]
      ⟨true, false, 5, 0, 0⟩ (by decide) (by decide)⟩

/-- C3 (counterexample): the claim says `skipBreak` increments
`totalBreaksTaken` by exactly 1, but the `skipBreak` of
`src/renderer/services/timerService.ts` leaves it unchanged on a break
state. -/
theorem c3_counterexample :
    (⟨false, true, 7, 2, 3⟩ : TimerState).isOnBreak = true ∧
    (RevA.skipBreak ⟨20, 20, 5, 4⟩ ⟨false, true, 7, 2, 3⟩).totalBreaksTaken ≠
      (⟨false, true, 7, 2, 3⟩ : TimerState).totalBreaksTaken + 1 ∧
    (RevA.skipBreak ⟨20, 20, 5, 4⟩ ⟨false, true, 7, 2, 3⟩).totalBreaksTaken =
      (⟨false, true, 7, 2, 3⟩ : TimerState).totalBreaksTaken := by
  refine ⟨rfl, ?_, rfl⟩
  decide

/-- C3 (amended): for every break state, `skipBreak` of the
storageService.ts revision behaves exactly as claimed — forces
`isOnBreak = false` and `timeRemaining = workDuration*60` regardless of
the remaining time, counts the break, and schedules the restart after the
fixed 500 ms delay — while `skipBreak` of the timerService.ts revision
forces the same phase and time but leaves `totalBreaksTaken` (and
`isRunning`) unchanged and schedules no restart. -/
theorem c3_skip_amended (σ : TimerSettings) (s : TimerState)
    (h : s.isOnBreak = true) :
    ((RevB.skipBreak σ s).1.isOnBreak = false) ∧
    ((RevB.skipBreak σ s).1.timeRemaining = σ.workDuration * 60) ∧
    ((RevB.skipBreak σ s).1.totalBreaksTaken = s.totalBreaksTaken + 1) ∧
    ((RevB.skipBreak σ s).2 = Followup.startAfterMs 500) ∧
    ((RevB.start (RevB.skipBreak σ s).1).isRunning = true) ∧
    ((RevA.skipBreak σ s).isOnBreak = false) ∧
    ((RevA.skipBreak σ s).timeRemaining = σ.workDuration * 60) ∧
    ((RevA.skipBreak σ s).totalBreaksTaken = s.totalBreaksTaken) ∧
    ((RevA.skipBreak σ s).isRunning = s.isRunning) := by
  simp [RevA.skipBreak, RevB.skipBreak, RevB.start]

/-- C3 (witness): the amended theorem instantiated at the default settings
and a mid-break state with 7 s left. -/
theorem c3_witness :
    ((⟨false, true, 7, 2, 3⟩ : TimerState).isOnBreak = true) ∧
    ((RevB.skipBreak ⟨20, 20, 5, 4⟩ ⟨false, true, 7, 2, 3⟩).1.isOnBreak = false ∧
      (RevB.skipBreak ⟨20, 20, 5, 4⟩ ⟨false, true, 7, 2, 3⟩).1.timeRemaining =
        (⟨20, 20, 5, 4⟩ : TimerSettings).workDuration * 60 ∧
      (RevB.skipBreak ⟨20, 20, 5, 4⟩ ⟨false, true, 7, 2, 3⟩).1.totalBreaksTaken =
        (⟨false, true, 7, 2, 3⟩ : TimerState).totalBreaksTaken + 1 ∧
      (RevB.skipBreak ⟨20, 20, 5, 4⟩ ⟨false, true, 7, 2, 3⟩).2 =
        Followup.startAfterMs 500 ∧
      (RevB.start (RevB.skipBreak ⟨20, 20, 5, 4⟩ ⟨false, true, 7, 2, 3⟩).1).isRunning
        = true ∧
      (RevA.skipBreak ⟨20, 20, 5, 4⟩ ⟨false, true, 7, 2, 3⟩).isOnBreak = false ∧
      (RevA.skipBreak ⟨20, 20, 5, 4⟩ ⟨false, true, 7, 2, 3⟩).timeRemaining =
        (⟨20, 20, 5, 4⟩ : TimerSettings).workDuration * 60 ∧
      (RevA.skipBreak ⟨20, 20, 5, 4⟩ ⟨false, true, 7, 2, 3⟩).totalBreaksTaken =
        (⟨false, true, 7, 2, 3⟩ : TimerState).totalBreaksTaken ∧
      (RevA.skipBreak ⟨20, 20, 5, 4⟩ ⟨false, true, 7, 2, 3⟩).isRunning =
        (⟨false, true, 7, 2, 3⟩ : TimerState).isRunning) :=
  ⟨by decide,
    c3_skip_amended ⟨20, 20, 5, 4⟩ ⟨false, true, 7, 2, 3⟩ (by decide)⟩

/-- C4 (counterexample): the claim says `snoozeBreak` auto-restarts the
countdown after the fixed 500 ms delay, but the `snoozeBreak` of
`src/renderer/services/timerService.ts` calls `start()` synchronously:
from a paused break state the countdown is already running again the
moment `snoozeBreak` returns, with no delayed restart pending. -/
theorem c4_counterexample :
    (⟨false, true, 7, 2, 3⟩ : TimerState).isRunning = false ∧
    (RevA.snoozeBreak ⟨20, 20, 5, 4⟩ ⟨false, true, 7, 2, 3⟩).isRunning = true := by
  refine ⟨rfl, ?_⟩
  decide

/-- C4 (amended): `snoozeBreak` sets `timeRemaining = workDuration*60` and
`isOnBreak = false` and leaves `totalBreaksTaken` (and `cycleCount`)
unchanged in both revisions; the storageService.ts revision stops the
countdown and schedules the restart after the fixed 500 ms delay, while
the timerService.ts revision restarts the countdown synchronously with no
delay. -/
theorem c4_snooze_amended (σ : TimerSettings) (s : TimerState) :
    ((RevB.snoozeBreak σ s).1.timeRemaining = σ.workDuration * 60) ∧
    ((RevB.snoozeBreak σ s).1.isOnBreak = false) ∧
    ((RevB.snoozeBreak σ s).1.isRunning = false) ∧
    ((RevB.snoozeBreak σ s).1.totalBreaksTaken = s.totalBreaksTaken) ∧
    ((RevB.snoozeBreak σ s).1.cycleCount = s.cycleCount) ∧
    ((RevB.snoozeBreak σ s).2 = Followup.startAfterMs 500) ∧
    ((RevB.start (RevB.snoozeBreak σ s).1).isRunning = true) ∧
    ((RevA.snoozeBreak σ s).timeRemaining = σ.workDuration * 60) ∧
    ((RevA.snoozeBreak σ s).isOnBreak = false) ∧
    ((RevA.snoozeBreak σ s).isRunning = true) ∧
    ((RevA.snoozeBreak σ s).totalBreaksTaken = s.totalBreaksTaken) ∧
    ((RevA.snoozeBreak σ s).cycleCount = s.cycleCount) := by
  refine ⟨rfl, rfl, rfl, rfl, rfl, rfl, rfl, ?_⟩
  by_cases hr : s.isRunning <;> simp [RevA.snoozeBreak, RevA.start, hr]

/-- C10: `pause` (in both TimerService revisions) changes only
`isRunning`: the remaining time, the phase flag and both counters are
unchanged, and pausing an already-paused state leaves it identical. -/
theorem c10_pause_frame (s : TimerState) :
    ((RevA.pause s).timeRemaining = s.timeRemaining ∧
      (RevA.pause s).isOnBreak = s.isOnBreak ∧
      (RevA.pause s).cycleCount = s.cycleCount ∧
      (RevA.pause s).totalBreaksTaken = s.totalBreaksTaken ∧
      (RevA.pause s).isRunning = false) ∧
    (s.isRunning = false → RevA.pause s = s) ∧
    ((RevB.pause s).timeRemaining = s.timeRemaining ∧
      (RevB.pause s).isOnBreak = s.isOnBreak ∧
      (RevB.pause s).cycleCount = s.cycleCount ∧
      (RevB.pause s).totalBreaksTaken = s.totalBreaksTaken ∧
      (RevB.pause s).isRunning = false) ∧
    (s.isRunning = false → RevB.pause s = s) := by
  obtain ⟨r, ob, t, c, b⟩ := s
  refine ⟨⟨rfl, rfl, rfl, rfl, rfl⟩, ?_, ⟨rfl, rfl, rfl, rfl, rfl⟩, ?_⟩ <;>
    · intro h
      simp only at h
      simp [RevA.pause, RevB.pause, h]

/-- C10 (witness): the theorem applied at an already-paused break state
with every hypothesis discharged: all fields but `isRunning` are
preserved, and pausing again leaves the state identical. -/
theorem c10_witness :
    ((RevA.pause ⟨false, true, 9, 1, 2⟩).timeRemaining =
        (⟨false, true, 9, 1, 2⟩ : TimerState).timeRemaining ∧
      (RevA.pause ⟨false, true, 9, 1, 2⟩).isOnBreak =
        (⟨false, true, 9, 1, 2⟩ : TimerState).isOnBreak ∧
      (RevA.pause ⟨false, true, 9, 1, 2⟩).cycleCount =
        (⟨false, true, 9, 1, 2⟩ : TimerState).cycleCount ∧
      (RevA.pause ⟨false, true, 9, 1, 2⟩).totalBreaksTaken =
        (⟨false, true, 9, 1, 2⟩ : TimerState).totalBreaksTaken ∧
      (RevA.pause ⟨false, true, 9, 1, 2⟩).isRunning = false) ∧
    (RevA.pause ⟨false, true, 9, 1, 2⟩ = ⟨false, true, 9, 1, 2⟩) ∧
    ((RevB.pause ⟨false, true, 9, 1, 2⟩).timeRemaining =
        (⟨false, true, 9, 1, 2⟩ : TimerState).timeRemaining ∧
      (RevB.pause ⟨false, true, 9, 1, 2⟩).isOnBreak =
        (⟨false, true, 9, 1, 2⟩ : TimerState).isOnBreak ∧
      (RevB.pause ⟨false, true, 9, 1, 2⟩).cycleCount =
        (⟨false, true, 9, 1, 2⟩ : TimerState).cycleCount ∧
      (RevB.pause ⟨false, true, 9, 1, 2⟩).totalBreaksTaken =
        (⟨false, true, 9, 1, 2⟩ : TimerState).totalBreaksTaken ∧
      (RevB.pause ⟨false, true, 9, 1, 2⟩).isRunning = false) ∧
    (RevB.pause ⟨false, true, 9, 1, 2⟩ = ⟨false, true, 9, 1, 2⟩) :=
  ⟨(c10_pause_frame ⟨false, true, 9, 1, 2⟩).1,
   (c10_pause_frame ⟨false, true, 9, 1, 2⟩).2.1 rfl,
   (c10_pause_frame ⟨false, true, 9, 1, 2⟩).2.2.1,
   (c10_pause_frame ⟨false, true, 9, 1, 2⟩).2.2.2 rfl⟩

/-- C5: `hideBreakOverlay` is idempotent — a no-op when no break is
active, and a second call in a row changes nothing; on an active break it
stops the broadcast loop and leaves the fleet empty, every live window
having been taken out of fullscreen, hidden and destroyed by the
per-window close. -/
theorem c5_hide_idempotent (st : OverlayState) (w : Surface) :
    (st.isBreakActive = false → Fleet.hideBreakOverlay st = st) ∧
    (Fleet.hideBreakOverlay (Fleet.hideBreakOverlay st) =
      Fleet.hideBreakOverlay st) ∧
    (st.isBreakActive = true →
      (Fleet.hideBreakOverlay st).broadcastActive = false ∧
      (Fleet.hideBreakOverlay st).fleet = []) ∧
    (w ∈ st.fleet → w.destroyed = false →
      (Fleet.hideSurface w).fullscreen = false ∧
      (Fleet.hideSurface w).visible = false ∧
      (Fleet.hideSurface w).destroyed = true) := by
  refine ⟨?_, ?_, ?_, ?_⟩
  · intro h
    simp [Fleet.hideBreakOverlay, h]
  · by_cases h : st.isBreakActive <;>
      simp [Fleet.hideBreakOverlay, h]
  · intro h
    simp [Fleet.hideBreakOverlay, h, settleClosed_map_hideSurface]
  · intro _ hlive
    simp [Fleet.hideSurface, hlive]

/-- C5 (witness): the theorem instantiated at an active break with one
live fullscreen window, every hypothesis discharged there: the second
call changes nothing, the broadcast loop is stopped, the fleet ends
empty, and the window ends unfullscreened, hidden and destroyed. -/
theorem c5_witness :
    (Fleet.hideBreakOverlay (Fleet.hideBreakOverlay
        ⟨true, 20, 1000, true, [⟨0, 0, 800, 600, true, true, false, false⟩]⟩) =
      Fleet.hideBreakOverlay
        ⟨true, 20, 1000, true, [⟨0, 0, 800, 600, true, true, false, false⟩]⟩) ∧
    (Fleet.hideBreakOverlay
        ⟨true, 20, 1000, true,
          [⟨0, 0, 800, 600, true, true, false, false⟩]⟩).broadcastActive = false ∧
    (Fleet.hideBreakOverlay
        ⟨true, 20, 1000, true,
          [⟨0, 0, 800, 600, true, true, false, false⟩]⟩).fleet = [] ∧
    (Fleet.hideSurface ⟨0, 0, 800, 600, true, true, false, false⟩).fullscreen
        = false ∧
    (Fleet.hideSurface ⟨0, 0, 800, 600, true, true, false, false⟩).visible
        = false ∧
    (Fleet.hideSurface ⟨0, 0, 800, 600, true, true, false, false⟩).destroyed
        = true :=
  ⟨(c5_hide_idempotent
      ⟨true, 20, 1000, true, [⟨0, 0, 800, 600, true, true, false, false⟩]⟩
      ⟨0, 0, 800, 600, true, true, false, false⟩).2.1,
   ((c5_hide_idempotent
      ⟨true, 20, 1000, true, [⟨0, 0, 800, 600, true, true, false, false⟩]⟩
      ⟨0, 0, 800, 600, true, true, false, false⟩).2.2.1 rfl).1,
   ((c5_hide_idempotent
      ⟨true, 20, 1000, true, [⟨0, 0, 800, 600, true, true, false, false⟩]⟩
      ⟨0, 0, 800, 600, true, true, false, false⟩).2.2.1 rfl).2,
   ((c5_hide_idempotent
      ⟨true, 20, 1000, true, [⟨0, 0, 800, 600, true, true, false, false⟩]⟩
      ⟨0, 0, 800, 600, true, true, false, false⟩).2.2.2 (by decide) rfl).1,
   ((c5_hide_idempotent
      ⟨true, 20, 1000, true, [⟨0, 0, 800, 600, true, true, false, false⟩]⟩
      ⟨0, 0, 800, 600, true, true, false, false⟩).2.2.2 (by decide) rfl).2.1,
   ((c5_hide_idempotent
      ⟨true, 20, 1000, true, [⟨0, 0, 800, 600, true, true, false, false⟩]⟩
      ⟨0, 0, 800, 600, true, true, false, false⟩).2.2.2 (by decide) rfl).2.2⟩

/-- C8: on an active break whose start timestamp has been recorded, every
broadcast tick computes the remaining time as
`max 0 (duration - secondsSinceBreakStart)` — hence never negative — and
sends it exactly to the windows that are neither destroyed nor still
loading; when the remaining value has reached 0 it clears the broadcast
interval and schedules teardown after the 100 ms grace delay. -/
theorem c8_broadcast (now : Int) (st : OverlayState) (w : Surface) :
    (st.isBreakActive = true → st.breakStartTime ≠ 0 →
      Fleet.getRemainingBreakTime now st =
        max 0 (st.currentBreakDuration - (now - st.breakStartTime).fdiv 1000) ∧
      0 ≤ Fleet.getRemainingBreakTime now st) ∧
    (w ∈ (Fleet.broadcastBreakTimer now st).2.1 ↔
      w ∈ st.fleet ∧ w.destroyed = false ∧ w.loading = false) ∧
    (Fleet.getRemainingBreakTime now st ≤ 0 →
      (Fleet.broadcastBreakTimer now st).1.broadcastActive = false ∧
      (Fleet.broadcastBreakTimer now st).2.2 = OverlayFollowup.hideAfterMs 100) := by
  refine ⟨?_, ?_, ?_⟩
  · intro ha hs
    have : Fleet.getRemainingBreakTime now st =
        max 0 (st.currentBreakDuration - (now - st.breakStartTime).fdiv 1000) := by
      simp [Fleet.getRemainingBreakTime, ha, hs]
    exact ⟨this, this ▸ le_max_left 0 _⟩
  · unfold Fleet.broadcastBreakTimer
    dsimp only
    split <;> simp [List.mem_filter, and_assoc]
  · intro h
    simp [Fleet.broadcastBreakTimer, h]

/-- C8 (witness): the theorem applied at concrete states with every
hypothesis discharged: 4 s into a 20 s break the remaining time is the
max-formula (and non-negative), the single live loaded window is a
recipient, and once a 4 s break's remaining time has reached 0 the
broadcast interval is cleared and teardown is scheduled after 100 ms. -/
theorem c8_witness :
    (Fleet.getRemainingBreakTime 5000
        ⟨true, 20, 1000, true, [⟨0, 0, 800, 600, true, true, false, false⟩]⟩ =
      max 0 ((20 : Int) - ((5000 : Int) - 1000).fdiv 1000) ∧
      0 ≤ Fleet.getRemainingBreakTime 5000
        ⟨true, 20, 1000, true, [⟨0, 0, 800, 600, true, true, false, false⟩]⟩) ∧
    ((⟨0, 0, 800, 600, true, true, false, false⟩ : Surface) ∈
        (Fleet.broadcastBreakTimer 5000
          ⟨true, 20, 1000, true,
            [⟨0, 0, 800, 600, true, true, false, false⟩]⟩).2.1 ↔
      (⟨0, 0, 800, 600, true, true, false, false⟩ : Surface) ∈
          (⟨true, 20, 1000, true,
            [⟨0, 0, 800, 600, true, true, false, false⟩]⟩ : OverlayState).fleet ∧
        (⟨0, 0, 800, 600, true, true, false, false⟩ : Surface).destroyed = false ∧
        (⟨0, 0, 800, 600, true, true, false, false⟩ : Surface).loading = false) ∧
    ((Fleet.broadcastBreakTimer 5000
        ⟨true, 4, 1000, true,
          [⟨0, 0, 800, 600, true, true, false, false⟩]⟩).1.broadcastActive
        = false ∧
      (Fleet.broadcastBreakTimer 5000
        ⟨true, 4, 1000, true,
          [⟨0, 0, 800, 600, true, true, false, false⟩]⟩).2.2 =
        OverlayFollowup.hideAfterMs 100) :=
  ⟨(c8_broadcast 5000
      ⟨true, 20, 1000, true, [⟨0, 0, 800, 600, true, true, false, false⟩]⟩
      ⟨0, 0, 800, 600, true, true, false, false⟩).1 rfl (by decide),
   (c8_broadcast 5000
      ⟨true, 20, 1000, true, [⟨0, 0, 800, 600, true, true, false, false⟩]⟩
      ⟨0, 0, 800, 600, true, true, false, false⟩).2.1,
   (c8_broadcast 5000
      ⟨true, 4, 1000, true, [⟨0, 0, 800, 600, true, true, false, false⟩]⟩
      ⟨0, 0, 800, 600, true, true, false, false⟩).2.2 (by decide)⟩

/-- C9 (counterexample): the `display-removed` handler compares only the
x-coordinate (|win.x - display.x| < 100), not the full origin.  With two
vertically stacked displays and only the top one at (0, 0) surviving, the
overlay recorded at (0, 1080) survives in the fleet although its position
does not approximately match the remaining display's origin — its
y-coordinate is 1080 px away. -/
theorem c9_counterexample :
    (⟨0, 1080, 1920, 1080, true, true, false, false⟩ : Surface) ∈
      (Fleet.onDisplayRemoved [⟨0, 0, 1920, 1080⟩]
        ⟨true, 20, 1000, true,
          [⟨0, 0, 1920, 1080, true, true, false, false⟩,
           ⟨0, 1080, 1920, 1080, true, true, false, false⟩]⟩).1.fleet ∧
    ¬((((0 : Int) - 0).natAbs < 100) ∧ (((1080 : Int) - 0).natAbs < 100)) := by
  refine ⟨?_, by decide⟩
  decide

/-- C9 (amended): `showBreakOverlay` with an empty fleet creates exactly
one overlay per connected display, positioned and sized to that display's
bounds; after `onDisplayRemoved` during an active break, every surviving
fleet surface is live and its recorded x-coordinate lies within the
100 px tolerance of some still-connected display's origin x-coordinate
(the y-coordinate is not compared), and every live surface with no
x-matching display is removed from the fleet and destroyed. -/
theorem c9_overlay_fleet_amended (now dur : Int) (displays : List Display)
    (st : OverlayState) (w : Surface) :
    (st.fleet = [] →
      (Fleet.showBreakOverlay now displays dur st).fleet.length =
        displays.length ∧
      (Fleet.showBreakOverlay now displays dur st).fleet.map
          (fun v => (v.x, v.y, v.width, v.height)) =
        displays.map (fun d => (d.x, d.y, d.width, d.height))) ∧
    (st.isBreakActive = true →
      (w ∈ (Fleet.onDisplayRemoved displays st).1.fleet →
        w.destroyed = false ∧
        (displays.any fun d => decide ((w.x - d.x).natAbs < 100)) = true) ∧
      (w ∈ st.fleet →
        (displays.any fun d => decide ((w.x - d.x).natAbs < 100)) = false →
        w ∉ (Fleet.onDisplayRemoved displays st).1.fleet) ∧
      (w ∈ (Fleet.onDisplayRemoved displays st).2 →
        w.destroyed = true ∧ w.visible = false ∧ w.fullscreen = false)) := by
  constructor
  · intro h
    simp [Fleet.showBreakOverlay, Fleet.createBreakOverlays,
      Fleet.newOverlayWindow, h, List.map_map, Function.comp]
  · intro ha
    refine ⟨?_, ?_, ?_⟩
    · intro hw
      simp only [Fleet.onDisplayRemoved, ha, Bool.not_true, Bool.false_eq_true, if_false] at hw
      simp only [List.mem_filter, Bool.and_eq_true, Bool.not_eq_true'] at hw
      exact ⟨hw.2.1, hw.2.2⟩
    · intro _ hmatch hw
      simp only [Fleet.onDisplayRemoved, ha, Bool.not_true, Bool.false_eq_true, if_false] at hw
      simp only [List.mem_filter, Bool.and_eq_true] at hw
      rw [hmatch] at hw
      simp at hw
    · intro hw
      simp only [Fleet.onDisplayRemoved, ha, Bool.not_true, Bool.false_eq_true, if_false] at hw
      obtain ⟨v, _, rfl⟩ := List.mem_map.mp hw
      simp [Fleet.closeSurface]

/-- C9 (witness): the amended theorem applied at concrete inputs with
every hypothesis discharged: showing a break on an empty fleet with one
display creates exactly one overlay at its bounds; during an active break,
a live window at x = 0 that survives `onDisplayRemoved` matches the
remaining display's x within tolerance, a live window at x = 500 is
removed from the fleet, and the dropped window is destroyed, hidden and
unfullscreened. -/
theorem c9_witness :
    ((Fleet.showBreakOverlay 1000 [⟨0, 0, 800, 600⟩] 20
        ⟨true, 20, 1000, true, []⟩).fleet.length =
      ([⟨0, 0, 800, 600⟩] : List Display).length ∧
      (Fleet.showBreakOverlay 1000 [⟨0, 0, 800, 600⟩] 20
        ⟨true, 20, 1000, true, []⟩).fleet.map
        (fun v => (v.x, v.y, v.width, v.height)) =
        ([⟨0, 0, 800, 600⟩] : List Display).map
          (fun d => (d.x, d.y, d.width, d.height))) ∧
    ((⟨0, 0, 800, 600, true, true, false, false⟩ : Surface).destroyed = false ∧
      (([⟨0, 0, 800, 600⟩] : List Display).any fun d =>
        decide (((⟨0, 0, 800, 600, true, true, false, false⟩ : Surface).x -
          d.x).natAbs < 100)) = true) ∧
    ((⟨500, 0, 800, 600, true, true, false, false⟩ : Surface) ∉
      (Fleet.onDisplayRemoved [⟨0, 0, 800, 600⟩]
        ⟨true, 20, 1000, true,
          [⟨0, 0, 800, 600, true, true, false, false⟩,
           ⟨500, 0, 800, 600, true, true, false, false⟩]⟩).1.fleet) ∧
    ((⟨500, 0, 800, 600, false, false, true, false⟩ : Surface).destroyed = true ∧
      (⟨500, 0, 800, 600, false, false, true, false⟩ : Surface).visible = false ∧
      (⟨500, 0, 800, 600, false, false, true, false⟩ : Surface).fullscreen
        = false) :=
  ⟨(c9_overlay_fleet_amended 1000 20 [⟨0, 0, 800, 600⟩]
      ⟨true, 20, 1000, true, []⟩
      ⟨0, 0, 800, 600, true, true, false, false⟩).1 rfl,
   ((c9_overlay_fleet_amended 1000 20 [⟨0, 0, 800, 600⟩]
      ⟨true, 20, 1000, true,
        [⟨0, 0, 800, 600, true, true, false, false⟩,
         ⟨500, 0, 800, 600, true, true, false, false⟩]⟩
      ⟨0, 0, 800, 600, true, true, false, false⟩).2 rfl).1 (by decide),
   ((c9_overlay_fleet_amended 1000 20 [⟨0, 0, 800, 600⟩]
      ⟨true, 20, 1000, true,
        [⟨0, 0, 800, 600, true, true, false, false⟩,
         ⟨500, 0, 800, 600, true, true, false, false⟩]⟩
      ⟨500, 0, 800, 600, true, true, false, false⟩).2 rfl).2.1
     (by decide) (by decide),
   ((c9_overlay_fleet_amended 1000 20 [⟨0, 0, 800, 600⟩]
      ⟨true, 20, 1000, true,
        [⟨0, 0, 800, 600, true, true, false, false⟩,
         ⟨500, 0, 800, 600, true, true, false, false⟩]⟩
      ⟨500, 0, 800, 600, false, false, true, false⟩).2 rfl).2.2 (by decide)⟩

/-- C6: the pending-break slot (a single `Option` — at most one
`PendingBreak` ever exists).  A break request while a meeting is detected
overwrites any prior pending duration with the new one and schedules a
30 s re-check; showing a break clears the pending slot;
`checkAndShowPendingBreak` is a no-op when no pending break exists,
leaves the pending break in place and reschedules itself while still in a
meeting, and consumes the pending break and shows it once the meeting has
ended. -/
theorem c6_pending_break (skip inM inM₂ : Bool) (d : Int) (st : GateState) :
    ((Gate.showBreakOverlay true true d st).1.pending = Option.some d ∧
      (Gate.showBreakOverlay true true d st).2 =
        GateFollowup.recheckAfterMs 30000) ∧
    ((skip && inM) = false →
      (Gate.showBreakOverlay skip inM d st).1.pending = Option.none ∧
      (Gate.showBreakOverlay skip inM d st).1.overlayShown = true) ∧
    (st.pending = Option.none →
      Gate.checkAndShowPendingBreak inM skip inM₂ st = (st, GateFollowup.none)) ∧
    (st.pending = Option.some d → inM = true →
      Gate.checkAndShowPendingBreak inM skip inM₂ st =
        (st, GateFollowup.recheckAfterMs 30000)) ∧
    (st.pending = Option.some d → inM = false → inM₂ = false →
      (Gate.checkAndShowPendingBreak inM skip inM₂ st).1.pending =
        Option.none ∧
      (Gate.checkAndShowPendingBreak inM skip inM₂ st).1.overlayShown = true) := by
  refine ⟨?_, ?_, ?_, ?_, ?_⟩
  · exact ⟨rfl, rfl⟩
  · intro h
    simp [Gate.showBreakOverlay, h]
  · intro h
    simp [Gate.checkAndShowPendingBreak, h]
  · intro hp hm
    simp [Gate.checkAndShowPendingBreak, hp, hm]
  · intro hp hm hm₂
    cases skip <;>
      simp [Gate.checkAndShowPendingBreak, Gate.showBreakOverlay, hp, hm, hm₂]

/-- C6 (witness): the theorem applied at concrete inputs with every
hypothesis discharged: a request during a meeting overwrites a prior
pending 5 s entry with 20 s and schedules the 30 s re-check; showing
clears the slot; the re-check is a no-op on an empty slot, reschedules
while still in a meeting, and consumes the slot and shows the break once
the meeting has ended. -/
theorem c6_witness :
    ((Gate.showBreakOverlay true true 20 ⟨Option.some 5, false⟩).1.pending =
        Option.some 20 ∧
      (Gate.showBreakOverlay true true 20 ⟨Option.some 5, false⟩).2 =
        GateFollowup.recheckAfterMs 30000) ∧
    ((Gate.showBreakOverlay true false 20 ⟨Option.some 5, false⟩).1.pending =
        Option.none ∧
      (Gate.showBreakOverlay true false 20 ⟨Option.some 5, false⟩).1.overlayShown
        = true) ∧
    (Gate.checkAndShowPendingBreak false true false ⟨Option.none, false⟩ =
      (⟨Option.none, false⟩, GateFollowup.none)) ∧
    (Gate.checkAndShowPendingBreak true true false ⟨Option.some 20, false⟩ =
      (⟨Option.some 20, false⟩, GateFollowup.recheckAfterMs 30000)) ∧
    ((Gate.checkAndShowPendingBreak false true false
        ⟨Option.some 20, false⟩).1.pending = Option.none ∧
      (Gate.checkAndShowPendingBreak false true false
        ⟨Option.some 20, false⟩).1.overlayShown = true) :=
  ⟨(c6_pending_break true false false 20 ⟨Option.some 5, false⟩).1,
   (c6_pending_break true false false 20 ⟨Option.some 5, false⟩).2.1 rfl,
   (c6_pending_break true false false 20 ⟨Option.none, false⟩).2.2.1 rfl,
   (c6_pending_break true true false 20 ⟨Option.some 20, false⟩).2.2.2.1 rfl rfl,
   (c6_pending_break true false false 20 ⟨Option.some 20, false⟩).2.2.2.2
     rfl rfl rfl⟩

/-- C7: the meeting detector is a total Boolean function of its queried
environment (it never propagates an error): it returns `false` off macOS
(capability unavailable), `false` when the screen-inspection permission is
not granted, `false` when the frontmost-application query fails (any
detection error is caught); and for an allow-listed, browser-class
frontmost application whose front-window title cannot be read it returns
`true`, failing safe toward not interrupting a possible meeting. -/
theorem c7_meeting_detector (env : MeetingEnv) (name : String) :
    (env.platformDarwin = false → isInMeeting env = false) ∧
    (env.screenPermission ≠ "granted" → isInMeeting env = false) ∧
    (env.frontmostApp = Option.none → isInMeeting env = false) ∧
    (env.platformDarwin = true → env.screenPermission = "granted" →
      env.frontmostApp = Option.some name →
      (MEETING_APPS.any fun a => strIncludes (strTrim name) a) = true →
      isBrowserApp (strTrim name) = true →
      env.browserFrontWindowTitle = Option.none →
      isInMeeting env = true) := by
  refine ⟨?_, ?_, ?_, ?_⟩
  · intro h
    simp [isInMeeting, h]
  · intro h
    by_cases hd : env.platformDarwin <;>
      simp [isInMeeting, hd, h]
  · intro h
    by_cases hd : env.platformDarwin <;>
      by_cases hp : env.screenPermission = "granted" <;>
        simp [isInMeeting, hd, hp, h]
  · intro hd hp hf hm hb ht
    simp [isInMeeting, hd, hp, hf, hm, hb, ht]

/-- C7 (witness): the theorem applied at concrete environments with every
hypothesis discharged: a non-macOS platform, a denied permission, and a
failing frontmost-app query each yield `false`; a macOS environment with
the permission granted, Google Chrome frontmost and an unreadable window
title yields `true`. -/
theorem c7_witness :
    isInMeeting ⟨false, "granted", Option.some "Zoom.us", Option.none⟩ = false ∧
    isInMeeting ⟨true, "denied", Option.some "Zoom.us", Option.none⟩ = false ∧
    isInMeeting ⟨true, "granted", Option.none, Option.none⟩ = false ∧
    isInMeeting ⟨true, "granted", Option.some "Google Chrome", Option.none⟩ =
      true :=
  ⟨(c7_meeting_detector
      ⟨false, "granted", Option.some "Zoom.us", Option.none⟩ "").1 rfl,
   (c7_meeting_detector
      ⟨true, "denied", Option.some "Zoom.us", Option.none⟩ "").2.1 (by decide),
   (c7_meeting_detector
      ⟨true, "granted", Option.none, Option.none⟩ "").2.2.1 rfl,
   (c7_meeting_detector
      ⟨true, "granted", Option.some "Google Chrome", Option.none⟩
      "Google Chrome").2.2.2 rfl rfl rfl (by decide) (by decide) rfl⟩

end ItsBreakTime
